import Mathlib

/-!
Verification of the PyAEDT-Motor wrapper layer.

Shallow embedding of the parts of the repository relevant to the claims:

* `pyaedt/modules/PostProcessor.py` — the `SolutionData` conversion helpers
  `to_degrees`, `to_radians` and `_convert_list_to_SI`.
* `pyaedt/modeler/Object3d.py` — `EdgeTypePrimitive.fillet` and
  `EdgeTypePrimitive.chamfer`, modelled together with the trace of calls they
  issue on the external editor object.
* `pyaedt/edb.py` — `Edb.__init__`, `Edb._init_dlls`, the `open_edb` /
  `create_edb` / `import_layout_pcb` / `open_edb_inside_aedt` flows, and the
  cached `core_*` accessor properties.
* the engineering-unit `Variable` system, whose implementation file
  (`pyaedt/application/Variables.py`) is not part of the source tree here;
  it is modelled from the spec and pinned down by the expectations of
  `_unittest/test_09_VariableManager.py`.

Python floats are modelled by exact real numbers; external engine state is
modelled by explicit parameters, and calls to the external engine by an
explicit event trace returned next to the computed result.
-/

namespace PyAEDT

/-! ## SolutionData conversion helpers (pyaedt/modules/PostProcessor.py)

The source of `SolutionData.to_degrees` is
`return [i*2*math.pi/360 for i in input_list]` and the source of
`SolutionData.to_radians` is `return [i*360/(2*math.pi) for i in input_list]`.
-/

noncomputable def to_degrees (input_list : List ℝ) : List ℝ :=
  input_list.map (fun i => i * 2 * Real.pi / 360)

noncomputable def to_radians (input_list : List ℝ) : List ℝ :=
  input_list.map (fun i => i * 360 / (2 * Real.pi))

/-- Model of `SolutionData._convert_list_to_SI`.  The source is
`sol = datalist`, then
`if dataunits in AEDT_units and units in AEDT_units[dataunits]:
sol = [i * AEDT_units[dataunits][units] for i in datalist]`, `return sol`.
The dictionary `AEDT_units` lives in `pyaedt/application/Variables.py`, which
is outside the available source tree, so the double lookup
`AEDT_units[dataunits][units]` is modelled by an explicit function
`aedt_units` returning `none` when either key is missing. -/
noncomputable def convert_list_to_SI (aedt_units : String → String → Option ℝ)
    (datalist : List ℝ) (dataunits units : String) : List ℝ :=
  match aedt_units dataunits units with
  | some factor => datalist.map (fun i => i * factor)
  | none => datalist

/-! ## EdgeTypePrimitive (pyaedt/modeler/Object3d.py)

The `fillet` and `chamfer` methods are shared by `VertexPrimitive` and
`EdgePrimitive`.  They read the parent object fields `name` and `is3d`,
build positional argument lists, call the external editor object once, and
check the "UnClassified" group afterwards, undoing on failure.
-/

/-- Fields of the parent `Object3d` read by `fillet` and `chamfer`. -/
structure Parent3d where
  name : String
  is3d : Bool
  deriving DecidableEq

/-- The receiver of an `EdgeTypePrimitive` method: a `VertexPrimitive` or an
`EdgePrimitive`, each holding its integer id and its parent object. -/
inductive EdgeTypeSelf where
  | vertex (id : Int) (parent : Parent3d) : EdgeTypeSelf
  | edge (id : Int) (parent : Parent3d) : EdgeTypeSelf
  deriving DecidableEq

def EdgeTypeSelf.parent : EdgeTypeSelf → Parent3d
  | .vertex _ p => p
  | .edge _ p => p

/-- One entry of a positional AEDT argument list: a plain string, a list of
integer ids, or a nested argument list. -/
inductive AedtArg where
  | str (s : String) : AedtArg
  | ids (l : List Int) : AedtArg
  | lst (l : List AedtArg) : AedtArg

/-- Calls issued on the external editor (`m_Editor`) and design (`odesign`)
COM objects by `fillet` and `chamfer`. -/
inductive EditorCall where
  | filletCall (arg1 arg2 : List AedtArg) : EditorCall
  | chamferCall (arg1 arg2 : List AedtArg) : EditorCall
  | getObjectsInGroup (group : String) : EditorCall
  | undo : EditorCall

/-- Outcome of running a wrapper method: the returned Python value, the trace
of calls issued on the external editor and design objects in order, and the
error messages sent to the messenger. -/
structure RunResult where
  result : Bool
  engine : List EditorCall
  errors : List String

/-- Run of `EdgeTypePrimitive.fillet`.  `arg_with_dim` models the externally
defined `self._parent._parent._arg_with_dim` helper that attaches units to a
number; `unclassified` models the list returned by the editor for
`GetObjectsInGroup("UnClassified")` after the operation. -/
def fillet (self : EdgeTypeSelf) (arg_with_dim : ℚ → String)
    (radius setback : ℚ) (unclassified : List String) : RunResult :=
  let p := self.parent
  let idlists : Option (List Int × List Int) :=
    match self with
    | .vertex i _ => some ([], [i])
    | .edge i _ => if p.is3d then some ([i], []) else none
  match idlists with
  | none =>
      { result := false, engine := [],
        errors := ["Filet is possible only on a vertex in 2D designs."] }
  | some (edge_id_list, vertex_id_list) =>
      let vArg1 : List AedtArg :=
        [.str "NAME:Selections", .str "Selections:=", .str p.name,
         .str "NewPartsModelFlag:=", .str "Model"]
      let vArg2 : List AedtArg :=
        [.str "NAME:FilletParameters", .str "Edges:=", .ids edge_id_list,
         .str "Vertices:=", .ids vertex_id_list,
         .str "Radius:=", .str (arg_with_dim radius),
         .str "Setback:=", .str (arg_with_dim setback)]
      let calls0 : List EditorCall :=
        [.filletCall vArg1 [.str "NAME:Parameters", .lst vArg2],
         .getObjectsInGroup "UnClassified"]
      if p.name ∈ unclassified then
        { result := false, engine := calls0 ++ [.undo],
          errors := ["Operation failed, generating an unclassified object. Check and retry."] }
      else
        { result := true, engine := calls0, errors := [] }

/-- Run of `EdgeTypePrimitive.chamfer`.  `num_str` models the Python `str`
conversion applied to `angle`; a `right_distance` of `none` models the Python
default `None`, and the source guard `if not right_distance` also replaces a
zero right distance by `left_distance`. -/
def chamfer (self : EdgeTypeSelf) (arg_with_dim : ℚ → String) (num_str : ℚ → String)
    (left_distance : ℚ) (right_distance : Option ℚ) (angle : ℚ)
    (chamfer_type : Int) (unclassified : List String) : RunResult :=
  let p := self.parent
  let idlists : Option (List Int × List Int) :=
    match self with
    | .vertex i _ => some ([], [i])
    | .edge i _ => if p.is3d then some ([i], []) else none
  match idlists with
  | none =>
      { result := false, engine := [],
        errors := ["chamfer is possible only on Vertex in 2D Designs "] }
  | some (edge_id_list, vertex_id_list) =>
      let rd : ℚ :=
        match right_distance with
        | none => left_distance
        | some r => if r = 0 then left_distance else r
      let base : List AedtArg :=
        [.str "NAME:ChamferParameters", .str "Edges:=", .ids edge_id_list,
         .str "Vertices:=", .ids vertex_id_list,
         .str "LeftDistance:=", .str (arg_with_dim left_distance)]
      let tail : Option (List AedtArg) :=
        if chamfer_type = 0 then
          some [.str "RightDistance:=", .str (arg_with_dim rd),
                .str "ChamferType:=", .str "Symmetric"]
        else if chamfer_type = 1 then
          some [.str "RightDistance:=", .str (arg_with_dim rd),
                .str "ChamferType:=", .str "Left Distance-Right Distance"]
        else if chamfer_type = 2 then
          some [.str "Angle:=", .str (num_str angle ++ "deg"),
                .str "ChamferType:=", .str "Left Distance-Right Distance"]
        else if chamfer_type = 3 then
          some [.str "LeftDistance:=", .str (num_str angle ++ "deg"),
                .str "RightDistance:=", .str (arg_with_dim rd),
                .str "ChamferType:=", .str "Right Distance-Angle"]
        else none
      match tail with
      | none =>
          { result := false, engine := [],
            errors := ["Wrong Type Entered. Type must be integer from 0 to 3"] }
      | some t =>
          let vArg1 : List AedtArg :=
            [.str "NAME:Selections", .str "Selections:=", .str p.name,
             .str "NewPartsModelFlag:=", .str "Model"]
          let calls0 : List EditorCall :=
            [.chamferCall vArg1 [.str "NAME:Parameters", .lst (base ++ t)],
             .getObjectsInGroup "UnClassified"]
          if p.name ∈ unclassified then
            { result := false, engine := calls0 ++ [.undo],
              errors := ["Operation Failed generating Unclassified object. Check and retry"] }
          else
            { result := true, engine := calls0, errors := [] }

/-- Recognizer for calls to the editor method `Fillet`. -/
def isFilletCall : EditorCall → Bool
  | .filletCall _ _ => true
  | _ => false

/-- Recognizer for calls to `odesign.Undo`. -/
def isUndo : EditorCall → Bool
  | .undo => true
  | _ => false

/-- Number of `Undo` calls in an editor trace. -/
def undoCount (trace : List EditorCall) : Nat :=
  (trace.filter isUndo).length

/-- Behaviour required of a run that reached the engine: when the parent name
shows up in the UnClassified group afterwards, the run returns `False`, issues
exactly one `Undo` and logs an error; otherwise it returns `True`, issues no
`Undo`, and logs nothing. -/
def rolls_back_iff_unclassified (res : RunResult) (name : String)
    (unclassified : List String) : Prop :=
  (name ∈ unclassified →
    res.result = false ∧ undoCount res.engine = 1 ∧ res.errors ≠ [])
  ∧ (name ∉ unclassified →
    res.result = true ∧ undoCount res.engine = 0 ∧ res.errors = [])

/-! ## Edb (pyaedt/edb.py)

`Edb.__init__` with the clr runtime available (`edb_initialized = True`) sets
up the messenger, calls `_init_dlls`, and then dispatches on `edbpath`:
it evaluates `edbpath[-3:]`, imports a layout file, creates a database, or
opens an existing one.  The runs below record the observable events.
-/

/-- Events observable during `Edb` initialization: references and imports of
.NET assemblies, the binding of `layout_methods`, and requests made to the
external engine (database open, create, attach, translator run, data-model
load and builder request). -/
inductive EdbEvent where
  | addReference (assembly : String) : EdbEvent
  | addReferenceToFile (assembly : String) : EdbEvent
  | addReferenceToFileAndPath (assembly : String) : EdbEvent
  | importModule (moduleName : String) : EdbEvent
  | takeLayoutMethods : EdbEvent
  | dbOpen : EdbEvent
  | dbCreate : EdbEvent
  | dbAttach : EdbEvent
  | translate : EdbEvent
  | loadDataModel : EdbEvent
  | getBuilder : EdbEvent
  deriving DecidableEq

/-- External environment of an `Edb` run: the operating-system flavour, the
file system, and the responses of the external engine and of the hosting
desktop session. -/
structure EdbWorld where
  posix : Bool
  pathExists : String → Bool
  openOk : Bool
  createOk : Bool
  translateOk : Bool
  hasEdbHandle : Bool
  attachOk : Bool
  mainHasIsOutsideDesktop : Bool
  isOutsideDesktop : Bool

/-- Trace of `Edb._init_dlls`: on posix the assemblies are referenced with
`clr.AddReferenceToFile` (and SimSetupData with
`clr.AddReferenceToFileAndPath`), otherwise with `clr.AddReference`; the
modules are then imported with `__import__` and `layout_methods` is taken
from the imported `EdbLib` module. -/
def init_dlls_trace (posix : Bool) : List EdbEvent :=
  (if posix then
    [.addReferenceToFile "Ansys.Ansoft.Edb.dll",
     .addReferenceToFile "Ansys.Ansoft.EdbBuilderUtils.dll",
     .addReferenceToFile "EdbLib.dll",
     .addReferenceToFile "DataModel.dll",
     .addReferenceToFileAndPath "Ansys.Ansoft.SimSetupData.dll"]
  else
    [.addReference "Ansys.Ansoft.Edb",
     .addReference "Ansys.Ansoft.EdbBuilderUtils",
     .addReference "EdbLib",
     .addReference "DataModel",
     .addReference "Ansys.Ansoft.SimSetupData"])
  ++ [.importModule "Ansys.Ansoft.Edb",
      .importModule "Ansys.Ansoft.EdbBuilderUtils",
      .importModule "EdbLib",
      .importModule "Ansys.Ansoft.SimSetupData",
      .takeLayoutMethods]

/-- The clr reference event that loads the EdbLib assembly, depending on the
operating-system flavour. -/
def edblib_reference (posix : Bool) : EdbEvent :=
  if posix then .addReferenceToFile "EdbLib.dll" else .addReference "EdbLib"

/-- Trace and builder outcome of `Edb.open_edb` with the default
`init_dlls=False`: the database is opened; on success the data model is
loaded and the builder is requested from `layout_methods`. -/
def open_edb_run (w : EdbWorld) : List EdbEvent × Bool :=
  if w.openOk then ([.dbOpen, .loadDataModel, .getBuilder], true)
  else ([.dbOpen], false)

/-- Trace and builder outcome of `Edb.create_edb`. -/
def create_edb_run (w : EdbWorld) : List EdbEvent × Bool :=
  if w.createOk then ([.dbCreate, .loadDataModel, .getBuilder], true)
  else ([.dbCreate], false)

/-- Trace and builder outcome of `Edb.open_edb_inside_aedt`: the database is
attached through the project handle when the project exposes one. -/
def open_edb_inside_aedt_run (w : EdbWorld) : List EdbEvent × Bool :=
  if w.hasEdbHandle then
    if w.attachOk then ([.dbAttach, .loadDataModel, .getBuilder], true)
    else ([.dbAttach], false)
  else ([], false)

/-- Trace and builder outcome of `Edb.import_layout_pcb`: the external
translator runs first and `open_edb` follows on success. -/
def import_layout_pcb_run (w : EdbWorld) : List EdbEvent × Bool :=
  if w.translateOk then
    (.translate :: (open_edb_run w).1, (open_edb_run w).2)
  else ([.translate], false)

/-- Python `s[-3:]`: the last three characters of a string (or the whole
string when it is shorter). -/
def takeRight3 (s : String) : String :=
  String.mk (s.toList.drop (s.toList.length - 3))

/-- Test whether a list starts with the given pattern. -/
def startsWithL : List Char → List Char → Bool
  | _, [] => true
  | [], _ :: _ => false
  | a :: as, b :: bs => a = b && startsWithL as bs

/-- Test whether the pattern occurs inside the list. -/
def hasInfixL (pat : List Char) : List Char → Bool
  | [] => pat.isEmpty
  | a :: as => startsWithL (a :: as) pat || hasInfixL pat as

/-- Python `pat in s` on strings: substring containment. -/
def containsSub (s pat : String) : Bool :=
  hasInfixL pat.toList s.toList

/-- Outcome of running `Edb.__init__`: normal return, or an uncaught
`TypeError`. -/
inductive PyOutcome where
  | ok : PyOutcome
  | typeError : PyOutcome
  deriving DecidableEq

/-- Full outcome of an `Edb.__init__` run. -/
structure EdbInitRun where
  result : PyOutcome
  trace : List EdbEvent
  builder : Bool

/-- Run of `Edb.__init__` with the clr runtime available.  The messenger
set-up makes no engine call; `_init_dlls` always runs; then the source
evaluates `edbpath[-3:]`, which on the default `edbpath=None` raises
`TypeError` (subscripting `None`) before any database is opened or created;
otherwise the source dispatches on the suffix, on the existence of
`edb.def`, and on the `.aedb` substring — when nothing matches, no database
call happens at all. -/
def edb_init (w : EdbWorld) (edbpath : Option String) (isaedtowned : Bool) :
    EdbInitRun :=
  let dlls := init_dlls_trace w.posix
  match edbpath with
  | none => { result := .typeError, trace := dlls, builder := false }
  | some p =>
      if takeRight3 p ∈ (["brd", "gds", "xml", "dxf", "tgz"] : List String) then
        { result := .ok, trace := dlls ++ (import_layout_pcb_run w).1,
          builder := (import_layout_pcb_run w).2 }
      else if w.pathExists (p ++ "/edb.def") = false then
        { result := .ok, trace := dlls ++ (create_edb_run w).1,
          builder := (create_edb_run w).2 }
      else if containsSub p ".aedb" then
        if isaedtowned && w.mainHasIsOutsideDesktop && !w.isOutsideDesktop then
          { result := .ok, trace := dlls ++ (open_edb_inside_aedt_run w).1,
            builder := (open_edb_inside_aedt_run w).2 }
        else
          { result := .ok, trace := dlls ++ (open_edb_run w).1,
            builder := (open_edb_run w).2 }
      else
        { result := .ok, trace := dlls, builder := false }

/-- An event touching the database: open, create, attach, or the translator
run that produces a new database folder. -/
def isDbEvent : EdbEvent → Bool
  | .dbOpen => true
  | .dbCreate => true
  | .dbAttach => true
  | .translate => true
  | _ => false

/-- The event `r` occurs strictly before every occurrence of the event `e` in
the trace `t`: every decomposition of `t` around an occurrence of `e` has `r`
in the left part. -/
def Precedes {α : Type} (r e : α) (t : List α) : Prop :=
  ∀ l₁ l₂ : List α, t = l₁ ++ e :: l₂ → r ∈ l₁

/-! ## Cached core accessors of Edb -/

/-- Cached wrapper-object fields of an `Edb` instance together with the
builder handle; wrapper handles are modelled as natural numbers. -/
structure EdbCaches where
  components : Option Nat
  stackup : Option Nat
  padstack : Option Nat
  siwave : Option Nat
  hfss : Option Nat
  nets : Option Nat
  core_prims : Option Nat
  builder : Option Nat
  deriving DecidableEq

/-- Generic body of the cached accessor properties of `Edb`:
`if not self._cache and self.builder: self._cache = Constructor(self)` and
then `return self._cache`.  Returns the value handed to the caller, the new
cache content, and whether a new wrapper object was constructed. -/
def cached_access (cache builder : Option Nat) (fresh : Nat) :
    Option Nat × Option Nat × Bool :=
  if cache.isNone && builder.isSome then (some fresh, some fresh, true)
  else (cache, cache, false)

/-- The `Edb.core_components` property. -/
def core_components (s : EdbCaches) (fresh : Nat) : Option Nat × EdbCaches × Bool :=
  ((cached_access s.components s.builder fresh).1,
   { s with components := (cached_access s.components s.builder fresh).2.1 },
   (cached_access s.components s.builder fresh).2.2)

/-- The `Edb.core_stackup` property. -/
def core_stackup (s : EdbCaches) (fresh : Nat) : Option Nat × EdbCaches × Bool :=
  ((cached_access s.stackup s.builder fresh).1,
   { s with stackup := (cached_access s.stackup s.builder fresh).2.1 },
   (cached_access s.stackup s.builder fresh).2.2)

/-- The `Edb.core_padstack` property. -/
def core_padstack (s : EdbCaches) (fresh : Nat) : Option Nat × EdbCaches × Bool :=
  ((cached_access s.padstack s.builder fresh).1,
   { s with padstack := (cached_access s.padstack s.builder fresh).2.1 },
   (cached_access s.padstack s.builder fresh).2.2)

/-- The `Edb.core_siwave` property. -/
def core_siwave (s : EdbCaches) (fresh : Nat) : Option Nat × EdbCaches × Bool :=
  ((cached_access s.siwave s.builder fresh).1,
   { s with siwave := (cached_access s.siwave s.builder fresh).2.1 },
   (cached_access s.siwave s.builder fresh).2.2)

/-- The `Edb.core_hfss` property. -/
def core_hfss (s : EdbCaches) (fresh : Nat) : Option Nat × EdbCaches × Bool :=
  ((cached_access s.hfss s.builder fresh).1,
   { s with hfss := (cached_access s.hfss s.builder fresh).2.1 },
   (cached_access s.hfss s.builder fresh).2.2)

/-- The `Edb.core_nets` property. -/
def core_nets (s : EdbCaches) (fresh : Nat) : Option Nat × EdbCaches × Bool :=
  ((cached_access s.nets s.builder fresh).1,
   { s with nets := (cached_access s.nets s.builder fresh).2.1 },
   (cached_access s.nets s.builder fresh).2.2)

/-- The `Edb.core_primitives` property. -/
def core_primitives (s : EdbCaches) (fresh : Nat) : Option Nat × EdbCaches × Bool :=
  ((cached_access s.core_prims s.builder fresh).1,
   { s with core_prims := (cached_access s.core_prims s.builder fresh).2.1 },
   (cached_access s.core_prims s.builder fresh).2.2)

/-- Specification of a caching accessor `acc` reading cache field `cache`:
while the builder is unset it constructs nothing and returns the current
cache; once a handle is cached it is returned unchanged with no new
construction; and an immediately repeated access returns the same value and
state with no construction. -/
def caches_handle (acc : EdbCaches → Nat → Option Nat × EdbCaches × Bool)
    (cache : EdbCaches → Option Nat) (s : EdbCaches) (fresh fresh2 : Nat) : Prop :=
  (s.builder = none → acc s fresh = (cache s, s, false))
  ∧ (∀ h : Nat, cache s = some h → acc s fresh = (some h, s, false))
  ∧ acc (acc s fresh).2.1 fresh2 = ((acc s fresh).1, (acc s fresh).2.1, false)

/-- Calls that a `SolutionData` method could issue on the external engine
(the `nominal_variation` COM object). -/
inductive SDCall where
  | getRealDataValues (expression : String) : SDCall
  | getImagDataValues (expression : String) : SDCall
  deriving DecidableEq

/-- The run of `SolutionData.to_degrees`: the returned list together with the
trace of engine calls made while computing it.  The body of the Python method
is a pure list comprehension, so the trace is empty. -/
noncomputable def to_degrees_run (input_list : List ℝ) : List ℝ × List SDCall :=
  (to_degrees input_list, [])

/-- The run of `SolutionData.to_radians`; again a pure list comprehension,
so the engine-call trace is empty. -/
noncomputable def to_radians_run (input_list : List ℝ) : List ℝ × List SDCall :=
  (to_radians input_list, [])

/-- The run of `SolutionData._convert_list_to_SI`; a dictionary lookup and a
pure list comprehension, so the engine-call trace is empty. -/
noncomputable def convert_list_to_SI_run (aedt_units : String → String → Option ℝ)
    (datalist : List ℝ) (dataunits units : String) : List ℝ × List SDCall :=
  (convert_list_to_SI aedt_units datalist dataunits units, [])

/-! ## The engineering-unit Variable expression system

The implementation file `pyaedt/application/Variables.py` is not part of the
source tree available here; only its unit tests
(`_unittest/test_09_VariableManager.py`) are.  The definitions below are
therefore modelled from the spec — the `Variable` class with
arithmetic and unit-conversion rules across unit systems performing
dimensional-analysis arithmetic — with the behaviour pinned down by the
expectations asserted in the unit tests.
-/

/-- Modelled from the spec: the unit systems of the engineering-unit variable
expression system of `pyaedt/application/Variables.py` (missing from the
source tree), restricted to the systems exercised by the claims.  `none_` is
the system of unitless quantities. -/
inductive VUnitSystem where
  | none_ : VUnitSystem
  | Length : VUnitSystem
  | Current : VUnitSystem
  | Voltage : VUnitSystem
  | Power : VUnitSystem
  | Torque : VUnitSystem
  | AngularSpeed : VUnitSystem
  | Angle : VUnitSystem
  | Temperature : VUnitSystem
  deriving DecidableEq

/-- Modelled from the spec: the units of the missing `AEDT_units` tables of
`pyaedt/application/Variables.py` that the claims exercise. -/
inductive VUnit where
  | unitless : VUnit
  | mm : VUnit
  | meter : VUnit
  | inch : VUnit
  | mA : VUnit
  | A : VUnit
  | V : VUnit
  | W : VUnit
  | kW : VUnit
  | NewtonMeter : VUnit
  | rpm : VUnit
  | rad_per_sec : VUnit
  | rev_per_sec : VUnit
  | deg : VUnit
  | rad : VUnit
  | degmin : VUnit
  | degsec : VUnit
  | cel : VUnit
  | fah : VUnit
  | kel : VUnit
  deriving DecidableEq

/-- Modelled from the spec: the unit system each unit belongs to. -/
def unit_system_of : VUnit → VUnitSystem
  | .unitless => .none_
  | .mm => .Length
  | .meter => .Length
  | .inch => .Length
  | .mA => .Current
  | .A => .Current
  | .V => .Voltage
  | .W => .Power
  | .kW => .Power
  | .NewtonMeter => .Torque
  | .rpm => .AngularSpeed
  | .rad_per_sec => .AngularSpeed
  | .rev_per_sec => .AngularSpeed
  | .deg => .Angle
  | .rad => .Angle
  | .degmin => .Angle
  | .degsec => .Angle
  | .cel => .Temperature
  | .fah => .Temperature
  | .kel => .Temperature

/-- Modelled from the spec: the scale factor of each unit relative to the SI
unit of its system (the first component of an affine map to SI). -/
noncomputable def siScale : VUnit → ℝ
  | .unitless => 1
  | .mm => 1 / 1000
  | .meter => 1
  | .inch => 127 / 5000
  | .mA => 1 / 1000
  | .A => 1
  | .V => 1
  | .W => 1
  | .kW => 1000
  | .NewtonMeter => 1
  | .rpm => 2 * Real.pi / 60
  | .rad_per_sec => 1
  | .rev_per_sec => 2 * Real.pi
  | .deg => Real.pi / 180
  | .rad => 1
  | .degmin => Real.pi / 10800
  | .degsec => Real.pi / 648000
  | .cel => 1
  | .fah => 5 / 9
  | .kel => 1

/-- Modelled from the spec: the offset of each unit relative to the SI
unit of its system; only the temperature units are genuinely affine. -/
noncomputable def siOffset : VUnit → ℝ
  | .cel => 5463 / 20
  | .fah => 45967 / 180
  | _ => 0

/-- Modelled from the spec: the SI unit of each unit system. -/
def siUnitOf : VUnitSystem → VUnit
  | .none_ => .unitless
  | .Length => .meter
  | .Current => .A
  | .Voltage => .V
  | .Power => .W
  | .Torque => .NewtonMeter
  | .AngularSpeed => .rad_per_sec
  | .Angle => .rad
  | .Temperature => .kel

/-- Modelled from the spec: a `Variable` value of the engineering-unit
system, holding the displayed numeric value and its unit. -/
structure Variable where
  numeric_value : ℝ
  units : VUnit

def Variable.unit_system (v : Variable) : VUnitSystem :=
  unit_system_of v.units

/-- SI value of a variable (the `value` property). -/
noncomputable def Variable.value (v : Variable) : ℝ :=
  siScale v.units * v.numeric_value + siOffset v.units

/-- Displayed value of an SI quantity re-expressed in the unit `u`. -/
noncomputable def fromSI (u : VUnit) (x : ℝ) : ℝ :=
  (x - siOffset u) / siScale u

/-- Modelled from the spec: `Variable.rescale_to` re-expresses the variable
in another unit of the same unit system and fails (`AssertionError`, here
`none`) on a unit of a different system. -/
noncomputable def Variable.rescale_to (v : Variable) (u : VUnit) : Option Variable :=
  if unit_system_of u = v.unit_system then some ⟨fromSI u v.value, u⟩ else none

/-- Modelled from the spec: the dimensional-analysis multiplication table on
unit systems, restricted to the products the claims exercise. -/
def unit_system_mul : VUnitSystem → VUnitSystem → Option VUnitSystem
  | .Voltage, .Current => some .Power
  | .Torque, .AngularSpeed => some .Power
  | _, _ => none

/-- Modelled from the spec: `Variable` multiplication.  A unitless operand
scales the displayed value of the other operand keeping its units; otherwise
the SI values are multiplied and the unit system of the product is resolved
through the multiplication table in either operand order, falling back to a
unitless result when no entry matches. -/
noncomputable def Variable.mul (v₁ v₂ : Variable) : Variable :=
  if v₁.unit_system = .none_ then ⟨v₁.numeric_value * v₂.numeric_value, v₂.units⟩
  else if v₂.unit_system = .none_ then ⟨v₁.numeric_value * v₂.numeric_value, v₁.units⟩
  else
    match (unit_system_mul v₁.unit_system v₂.unit_system).orElse
        (fun _ => unit_system_mul v₂.unit_system v₁.unit_system) with
    | some sys => ⟨fromSI (siUnitOf sys) (v₁.value * v₂.value), siUnitOf sys⟩
    | none => ⟨v₁.value * v₂.value, .unitless⟩

/-- Modelled from the spec: `Variable` addition.  Only variables of the same
unit system can be added (`AssertionError`, here `none`, otherwise); the SI
values are summed and re-expressed in the common unit when the operand units
agree and in the SI unit of the system when they differ. -/
noncomputable def Variable.add (v₁ v₂ : Variable) : Option Variable :=
  if v₁.unit_system = v₂.unit_system then
    let u := if v₁.units = v₂.units then v₁.units else siUnitOf v₁.unit_system
    some ⟨fromSI u (v₁.value + v₂.value), u⟩
  else none

/-- Modelled from the spec: `Variable` subtraction, with the same unit-system
restriction and result-unit choice as addition. -/
noncomputable def Variable.sub (v₁ v₂ : Variable) : Option Variable :=
  if v₁.unit_system = v₂.unit_system then
    let u := if v₁.units = v₂.units then v₁.units else siUnitOf v₁.unit_system
    some ⟨fromSI u (v₁.value - v₂.value), u⟩
  else none

end PyAEDT

namespace PyAEDT

/-- C9: `to_degrees` multiplies every element by `2*pi/360`, `to_radians`
multiplies every element by `360/(2*pi)`, the two functions are two-sided
inverses of each other in exact real arithmetic, and the factor applied by
`to_degrees` is the degrees-to-radians factor `pi/180`. -/
theorem c9_to_degrees_to_radians_inverse (l : List ℝ) :
    to_degrees l = l.map (fun i => i * (2 * Real.pi / 360))
    ∧ to_radians l = l.map (fun i => i * (360 / (2 * Real.pi)))
    ∧ to_radians (to_degrees l) = l
    ∧ to_degrees (to_radians l) = l
    ∧ 2 * Real.pi / 360 = Real.pi / 180 := by
  have hpi := Real.pi_ne_zero
  refine ⟨?_, ?_, ?_, ?_, by ring⟩
  · simp only [to_degrees]
    exact List.map_congr_left fun i _ => by ring
  · simp only [to_radians]
    exact List.map_congr_left fun i _ => by ring
  · simp only [to_degrees, to_radians, List.map_map]
    have h : ∀ x : ℝ, x * 2 * Real.pi / 360 * 360 / (2 * Real.pi) = x := by
      intro x
      field_simp
      ring
    calc l.map ((fun i => i * 360 / (2 * Real.pi)) ∘ fun i => i * 2 * Real.pi / 360)
        = l.map id := List.map_congr_left fun i _ => by simpa using h i
      _ = l := List.map_id l
  · simp only [to_degrees, to_radians, List.map_map]
    have h : ∀ x : ℝ, x * 360 / (2 * Real.pi) * 2 * Real.pi / 360 = x := by
      intro x
      field_simp
      ring
    calc l.map ((fun i => i * 2 * Real.pi / 360) ∘ fun i => i * 360 / (2 * Real.pi))
        = l.map id := List.map_congr_left fun i _ => by simpa using h i
      _ = l := List.map_id l

/-- C1 counterexample: the claim says every post-processing operation of
`SolutionData` obtains its returned values directly from the external engine
and computes nothing locally.  But `to_degrees`, run on the list `[180]`,
issues no engine call at all (its trace is empty) and returns `[pi]`, a value
different from its input, so the returned value is computed locally in the
Python code. -/
theorem c1_counterexample :
    to_degrees_run [(180 : ℝ)] = ([Real.pi], [])
    ∧ Real.pi ≠ (180 : ℝ) := by
  constructor
  · simp only [to_degrees_run, to_degrees, List.map_cons, List.map_nil]
    have : (180 : ℝ) * 2 * Real.pi / 360 = Real.pi := by ring
    rw [this]
  · have h : Real.pi < 3.15 := Real.pi_lt_d2
    intro hc
    rw [hc] at h
    norm_num at h

/-- C1 amended: the `SolutionData` conversion helpers `to_degrees`,
`to_radians` and `_convert_list_to_SI` compute their results locally in the
Python code by pointwise scaling of the input list, issuing no engine call:
for any unit-table entry `factor` found for the given unit keys,
`_convert_list_to_SI` multiplies each element by `factor` locally.  Only the
data-retrieval methods of `SolutionData` obtain values from the engine. -/
theorem c1_conversions_are_local (l : List ℝ)
    (aedt_units : String → String → Option ℝ) (du u : String) (factor : ℝ)
    (h : aedt_units du u = some factor) :
    to_degrees_run l = (l.map (fun i => i * 2 * Real.pi / 360), [])
    ∧ to_radians_run l = (l.map (fun i => i * 360 / (2 * Real.pi)), [])
    ∧ convert_list_to_SI_run aedt_units l du u = (l.map (fun i => i * factor), []) := by
  refine ⟨rfl, rfl, ?_⟩
  simp only [convert_list_to_SI_run, convert_list_to_SI, h]

/-- C1 witness: the amended theorem applied at a concrete input. -/
theorem c1_conversions_are_local_witness :
    (fun _ _ => some (1000 : ℝ) : String → String → Option ℝ) "Freq" "kHz" = some 1000
    ∧ (to_degrees_run [(1 : ℝ)] = ([(1 : ℝ) * 2 * Real.pi / 360], [])
      ∧ to_radians_run [(1 : ℝ)] = ([(1 : ℝ) * 360 / (2 * Real.pi)], [])
      ∧ convert_list_to_SI_run (fun _ _ => some (1000 : ℝ)) [(1 : ℝ)] "Freq" "kHz"
          = ([(1 : ℝ) * 1000], [])) := by
  refine ⟨rfl, ?_⟩
  have h := c1_conversions_are_local [(1 : ℝ)] (fun _ _ => some (1000 : ℝ)) "Freq" "kHz" 1000 rfl
  simpa using h

/-- C2: `EdgeTypePrimitive.fillet` on a vertex, or on an edge whose parent is
3D, issues exactly one `Fillet` call on the external editor, whose two
positional arguments are exactly
`["NAME:Selections", "Selections:=", name, "NewPartsModelFlag:=", "Model"]`
and `["NAME:Parameters", ["NAME:FilletParameters", "Edges:=", edge ids,
"Vertices:=", vertex ids, "Radius:=", radius with units, "Setback:=",
setback with units]]`; on an edge of a 2D design it returns `False` with no
engine call at all. -/
theorem c2_fillet_marshalling (p : Parent3d) (i : Int) (aw : ℚ → String)
    (r s : ℚ) (uncl : List String) :
    ((fillet (.vertex i p) aw r s uncl).engine.filter isFilletCall =
      [.filletCall
        [.str "NAME:Selections", .str "Selections:=", .str p.name,
         .str "NewPartsModelFlag:=", .str "Model"]
        [.str "NAME:Parameters",
         .lst [.str "NAME:FilletParameters", .str "Edges:=", .ids [],
               .str "Vertices:=", .ids [i],
               .str "Radius:=", .str (aw r), .str "Setback:=", .str (aw s)]]])
    ∧ (p.is3d = true →
      (fillet (.edge i p) aw r s uncl).engine.filter isFilletCall =
      [.filletCall
        [.str "NAME:Selections", .str "Selections:=", .str p.name,
         .str "NewPartsModelFlag:=", .str "Model"]
        [.str "NAME:Parameters",
         .lst [.str "NAME:FilletParameters", .str "Edges:=", .ids [i],
               .str "Vertices:=", .ids [],
               .str "Radius:=", .str (aw r), .str "Setback:=", .str (aw s)]]])
    ∧ (p.is3d = false →
      (fillet (.edge i p) aw r s uncl).result = false
      ∧ (fillet (.edge i p) aw r s uncl).engine = []) := by
  refine ⟨?_, ?_, ?_⟩
  · by_cases hm : p.name ∈ uncl <;>
      simp [fillet, EdgeTypeSelf.parent, hm, isFilletCall, List.filter]
  · intro h3
    by_cases hm : p.name ∈ uncl <;>
      simp [fillet, EdgeTypeSelf.parent, h3, hm, isFilletCall, List.filter]
  · intro h2
    simp [fillet, EdgeTypeSelf.parent, h2]

/-- C2 witness: the theorem applied to a concrete parent, edge id, radius and
setback. -/
theorem c2_fillet_marshalling_witness :
    (⟨"Box1", true⟩ : Parent3d).is3d = true
    ∧ ((fillet (.vertex 7 ⟨"Box1", true⟩) (fun _ => "0.1mm") 1 0 []).engine.filter
        isFilletCall =
      [.filletCall
        [.str "NAME:Selections", .str "Selections:=", .str "Box1",
         .str "NewPartsModelFlag:=", .str "Model"]
        [.str "NAME:Parameters",
         .lst [.str "NAME:FilletParameters", .str "Edges:=", .ids [],
               .str "Vertices:=", .ids [7],
               .str "Radius:=", .str "0.1mm", .str "Setback:=", .str "0.1mm"]]]) :=
  ⟨rfl, (c2_fillet_marshalling ⟨"Box1", true⟩ 7 (fun _ => "0.1mm") 1 0 []).1⟩

/-- C8: every `fillet` or `chamfer` run that reaches the engine (a vertex, or
an edge with a 3D parent, and for `chamfer` a type in 0..3) returns `False`,
issues exactly one `Undo` and logs an error when the parent name appears in
the UnClassified group afterwards, and otherwise returns `True` and issues no
`Undo`. -/
theorem c8_undo_on_unclassified (p : Parent3d) (i : Int) (aw ns : ℚ → String)
    (r s ld ang : ℚ) (rdo : Option ℚ) (ct : Int) (uncl : List String)
    (hct : ct = 0 ∨ ct = 1 ∨ ct = 2 ∨ ct = 3) :
    rolls_back_iff_unclassified (fillet (.vertex i p) aw r s uncl) p.name uncl
    ∧ (p.is3d = true →
      rolls_back_iff_unclassified (fillet (.edge i p) aw r s uncl) p.name uncl)
    ∧ rolls_back_iff_unclassified (chamfer (.vertex i p) aw ns ld rdo ang ct uncl)
        p.name uncl
    ∧ (p.is3d = true →
      rolls_back_iff_unclassified (chamfer (.edge i p) aw ns ld rdo ang ct uncl)
        p.name uncl) := by
  have hfillet : ∀ sf : EdgeTypeSelf, sf.parent = p →
      (sf = .vertex i p ∨ (sf = .edge i p ∧ p.is3d = true)) →
      rolls_back_iff_unclassified (fillet sf aw r s uncl) p.name uncl := by
    rintro sf hp (rfl | ⟨rfl, h3⟩) <;>
      constructor <;> intro hm <;>
        simp [fillet, EdgeTypeSelf.parent, hm, rolls_back_iff_unclassified,
          undoCount, isUndo, *]
  have hchamfer : ∀ sf : EdgeTypeSelf, sf.parent = p →
      (sf = .vertex i p ∨ (sf = .edge i p ∧ p.is3d = true)) →
      rolls_back_iff_unclassified (chamfer sf aw ns ld rdo ang ct uncl) p.name uncl := by
    rintro sf hp (rfl | ⟨rfl, h3⟩) <;>
      constructor <;> intro hm <;>
        rcases hct with rfl | rfl | rfl | rfl <;>
          simp [chamfer, EdgeTypeSelf.parent, hm, rolls_back_iff_unclassified,
            undoCount, isUndo, *]
  exact ⟨hfillet _ rfl (Or.inl rfl),
    fun h3 => hfillet _ rfl (Or.inr ⟨rfl, h3⟩),
    hchamfer _ rfl (Or.inl rfl),
    fun h3 => hchamfer _ rfl (Or.inr ⟨rfl, h3⟩)⟩

/-- C8 witness: the theorem applied to a concrete vertex, with the parent name
in the UnClassified group, so the failing branch is exercised concretely. -/
theorem c8_undo_on_unclassified_witness :
    ((0 : Int) = 0 ∨ (0 : Int) = 1 ∨ (0 : Int) = 2 ∨ (0 : Int) = 3)
    ∧ rolls_back_iff_unclassified
        (fillet (.vertex 7 ⟨"Box1", true⟩) (fun _ => "0.1mm") 1 0 ["Box1"])
        "Box1" ["Box1"]
    ∧ (fillet (.vertex 7 ⟨"Box1", true⟩) (fun _ => "0.1mm") 1 0 ["Box1"]).result = false
    ∧ undoCount (fillet (.vertex 7 ⟨"Box1", true⟩) (fun _ => "0.1mm") 1 0 ["Box1"]).engine
        = 1 := by
  have h := c8_undo_on_unclassified (⟨"Box1", true⟩ : Parent3d) 7
    (fun _ => "0.1mm") (fun _ => "45") 1 0 1 45 none 0 ["Box1"] (Or.inl rfl)
  have hmem : "Box1" ∈ ["Box1"] := by decide
  refine ⟨Or.inl rfl, h.1, (h.1.1 hmem).1, (h.1.1 hmem).2.1⟩

/-! ## Helper lemmas about event ordering -/

theorem precedes_of_not_mem {α : Type} {r e : α} {t : List α} (he : e ∉ t) :
    Precedes r e t := by
  intro l₁ l₂ h
  refine absurd ?_ he
  rw [h]
  exact List.mem_append_right l₁ (List.mem_cons_self e l₂)

theorem precedes_cons_head {α : Type} {r e : α} (h : e ≠ r) (t : List α) :
    Precedes r e (r :: t) := by
  intro l₁ l₂ hs
  cases l₁ with
  | nil =>
      injection hs with h1 h2
      exact absurd h1.symm h
  | cons a l₁ =>
      injection hs with h1 h2
      subst h1
      exact List.mem_cons_self _ _

theorem precedes_cons_tail {α : Type} {r e x : α} {t : List α} (hx : x ≠ e)
    (h : Precedes r e t) : Precedes r e (x :: t) := by
  intro l₁ l₂ hs
  cases l₁ with
  | nil =>
      injection hs with h1 h2
      exact absurd h1 hx
  | cons a l₁ =>
      injection hs with h1 h2
      exact List.mem_cons_of_mem a (h l₁ l₂ h2)

theorem precedes_append {α : Type} {r e : α} {A B : List α}
    (h₁ : Precedes r e A) (hr : r ∈ A) : Precedes r e (A ++ B) := by
  intro l₁ l₂ h
  rcases List.append_eq_append_iff.mp h with ⟨a₂, ha, hb⟩ | ⟨c₂, ha, hb⟩
  · rw [ha]
    exact List.mem_append_left _ hr
  · cases c₂ with
    | nil =>
        simp only [List.append_nil] at ha
        rw [← ha]
        exact hr
    | cons x xs =>
        injection hb with hb1 hb2
        subst hb1
        exact h₁ l₁ xs ha

theorem edb_init_trace_decomp (w : EdbWorld) (edbpath : Option String)
    (owned : Bool) :
    ∃ rest, (edb_init w edbpath owned).trace = init_dlls_trace w.posix ++ rest := by
  cases edbpath with
  | none => exact ⟨[], by simp [edb_init]⟩
  | some p =>
      simp only [edb_init]
      split_ifs <;> first
        | exact ⟨_, rfl⟩
        | exact ⟨[], by simp⟩

theorem cached_access_spec (cache builder : Option Nat) (fresh fresh2 : Nat) :
    (builder = none → cached_access cache builder fresh = (cache, cache, false))
    ∧ (∀ h : Nat, cache = some h →
        cached_access cache builder fresh = (some h, cache, false))
    ∧ cached_access (cached_access cache builder fresh).2.1 builder fresh2
      = ((cached_access cache builder fresh).1,
         (cached_access cache builder fresh).2.1, false) := by
  refine ⟨fun hb => ?_, fun h hc => ?_, ?_⟩
  · subst hb
    cases cache <;> simp [cached_access]
  · subst hc
    cases builder <;> simp [cached_access]
  · cases cache <;> cases builder <;> simp [cached_access]

/-- C3: with the clr runtime available, `Edb.__init__` on the documented
default `edbpath=None` raises `TypeError` (the source subscripts `None` with
`edbpath[-3:]`), with no database opened, created, attached or translated
before the raise; and a run of `__init__` can only return normally when
`edbpath` is a non-None string. -/
theorem c3_default_edbpath_raises (w : EdbWorld) (owned : Bool) :
    (edb_init w none owned).result = .typeError
    ∧ (∀ e ∈ (edb_init w none owned).trace, isDbEvent e = false)
    ∧ (∀ p : Option String, (edb_init w p owned).result = .ok → p.isSome) := by
  refine ⟨rfl, ?_, ?_⟩
  · intro e he
    simp only [edb_init] at he
    cases hpos : w.posix <;> rw [hpos] at he <;>
      simp only [init_dlls_trace, if_true, if_false, Bool.false_eq_true,
        List.cons_append, List.nil_append, List.mem_cons, List.not_mem_nil,
        or_false] at he <;>
      rcases he with rfl | rfl | rfl | rfl | rfl | rfl | rfl | rfl | rfl | rfl <;>
      rfl
  · intro p hp
    cases p with
    | none => exact absurd hp (by simp [edb_init])
    | some q => rfl

/-- C3 witness: the theorem applied to a concrete world; the trace of the
failing run contains only DLL events, and with a concrete non-None path the
run returns normally. -/
theorem c3_default_edbpath_raises_witness :
    (edb_init ⟨false, fun _ => false, true, true, true, true, true, true, true⟩
      none false).result = .typeError
    ∧ EdbEvent.takeLayoutMethods ∈ (edb_init
        ⟨false, fun _ => false, true, true, true, true, true, true, true⟩
        none false).trace
    ∧ isDbEvent .takeLayoutMethods = false
    ∧ (edb_init ⟨false, fun _ => false, true, true, true, true, true, true, true⟩
        (some "board1") false).result = .ok
    ∧ (some "board1" : Option String).isSome := by
  have h := c3_default_edbpath_raises
    (⟨false, fun _ => false, true, true, true, true, true, true, true⟩ : EdbWorld) false
  have hmem : EdbEvent.takeLayoutMethods ∈ (edb_init
      ⟨false, fun _ => false, true, true, true, true, true, true, true⟩
      none false).trace := by
    simp [edb_init, init_dlls_trace]
  have hok : (edb_init ⟨false, fun _ => false, true, true, true, true, true, true, true⟩
      (some "board1") false).result = .ok := by
    simp [edb_init, takeRight3, create_edb_run]
  exact ⟨h.1, hmem, h.2.1 _ hmem, hok, h.2.2 (some "board1") hok⟩

/-- C7: each cached `core_*` accessor property of `Edb` (components, stackup,
padstack, siwave, hfss, nets, primitives) constructs nothing and returns the
current cache while the builder is unset, returns a cached non-None handle
unchanged without constructing a new one, and an immediately repeated access
returns the same handle and state with no construction, so repeated access is
idempotent. -/
theorem c7_core_accessors_cache (s : EdbCaches) (fresh fresh2 : Nat) :
    caches_handle core_components (fun t => t.components) s fresh fresh2
    ∧ caches_handle core_stackup (fun t => t.stackup) s fresh fresh2
    ∧ caches_handle core_padstack (fun t => t.padstack) s fresh fresh2
    ∧ caches_handle core_siwave (fun t => t.siwave) s fresh fresh2
    ∧ caches_handle core_hfss (fun t => t.hfss) s fresh fresh2
    ∧ caches_handle core_nets (fun t => t.nets) s fresh fresh2
    ∧ caches_handle core_primitives (fun t => t.core_prims) s fresh fresh2 := by
  obtain ⟨c1, c2, c3, c4, c5, c6, c7x, b⟩ := s
  refine ⟨?_, ?_, ?_, ?_, ?_, ?_, ?_⟩
  · cases c1 <;> cases b <;>
      simp [caches_handle, core_components, cached_access]
  · cases c2 <;> cases b <;>
      simp [caches_handle, core_stackup, cached_access]
  · cases c3 <;> cases b <;>
      simp [caches_handle, core_padstack, cached_access]
  · cases c4 <;> cases b <;>
      simp [caches_handle, core_siwave, cached_access]
  · cases c5 <;> cases b <;>
      simp [caches_handle, core_hfss, cached_access]
  · cases c6 <;> cases b <;>
      simp [caches_handle, core_nets, cached_access]
  · cases c7x <;> cases b <;>
      simp [caches_handle, core_primitives, cached_access]

/-- C7 witness: with the builder unset and a handle already cached, a
concrete access returns the cached handle, changes nothing and constructs
nothing. -/
theorem c7_core_accessors_cache_witness :
    (⟨some 5, none, none, none, none, none, none, none⟩ : EdbCaches).builder = none
    ∧ (⟨some 5, none, none, none, none, none, none, none⟩ : EdbCaches).components = some 5
    ∧ core_components ⟨some 5, none, none, none, none, none, none, none⟩ 9
      = (some 5, ⟨some 5, none, none, none, none, none, none, none⟩, false) :=
  ⟨rfl, rfl,
    (c7_core_accessors_cache ⟨some 5, none, none, none, none, none, none, none⟩ 9 9).1.2.1
      5 rfl⟩

/-- C10: in every `Edb` initialization run with the clr runtime available,
the EdbLib assembly is referenced through `clr.AddReference`
(`clr.AddReferenceToFile` on posix) before the `EdbLib` module is imported,
`layout_methods` is taken from the module only after that import, and no
builder request is ever issued to `layout_methods` before the EdbLib
assembly has been referenced. -/
theorem c10_edblib_referenced_before_use (w : EdbWorld) (edbpath : Option String)
    (owned : Bool) :
    edblib_reference w.posix ∈ (edb_init w edbpath owned).trace
    ∧ Precedes (edblib_reference w.posix) (.importModule "EdbLib")
        (edb_init w edbpath owned).trace
    ∧ Precedes (.importModule "EdbLib") .takeLayoutMethods
        (edb_init w edbpath owned).trace
    ∧ Precedes (edblib_reference w.posix) .getBuilder
        (edb_init w edbpath owned).trace := by
  obtain ⟨rest, hdec⟩ := edb_init_trace_decomp w edbpath owned
  rw [hdec]
  cases hpos : w.posix
  · refine ⟨List.mem_append_left _ (by decide), ?_, ?_, ?_⟩
    · refine precedes_append ?_ (by decide)
      simp only [init_dlls_trace, edblib_reference, Bool.false_eq_true, if_false,
        List.cons_append, List.nil_append]
      refine precedes_cons_tail (by decide) ?_
      refine precedes_cons_tail (by decide) ?_
      exact precedes_cons_head (by decide) _
    · refine precedes_append ?_ (by decide)
      simp only [init_dlls_trace, Bool.false_eq_true, if_false,
        List.cons_append, List.nil_append]
      refine precedes_cons_tail (by decide) ?_
      refine precedes_cons_tail (by decide) ?_
      refine precedes_cons_tail (by decide) ?_
      refine precedes_cons_tail (by decide) ?_
      refine precedes_cons_tail (by decide) ?_
      refine precedes_cons_tail (by decide) ?_
      refine precedes_cons_tail (by decide) ?_
      exact precedes_cons_head (by decide) _
    · refine precedes_append ?_ (by decide)
      exact precedes_of_not_mem (by decide)
  · refine ⟨List.mem_append_left _ (by decide), ?_, ?_, ?_⟩
    · refine precedes_append ?_ (by decide)
      simp only [init_dlls_trace, edblib_reference, if_true,
        List.cons_append, List.nil_append]
      refine precedes_cons_tail (by decide) ?_
      refine precedes_cons_tail (by decide) ?_
      exact precedes_cons_head (by decide) _
    · refine precedes_append ?_ (by decide)
      simp only [init_dlls_trace, if_true, List.cons_append, List.nil_append]
      refine precedes_cons_tail (by decide) ?_
      refine precedes_cons_tail (by decide) ?_
      refine precedes_cons_tail (by decide) ?_
      refine precedes_cons_tail (by decide) ?_
      refine precedes_cons_tail (by decide) ?_
      refine precedes_cons_tail (by decide) ?_
      refine precedes_cons_tail (by decide) ?_
      exact precedes_cons_head (by decide) _
    · refine precedes_append ?_ (by decide)
      exact precedes_of_not_mem (by decide)

/-- C10 witness: in a concrete run that does request the builder, splitting
the trace right before the builder request shows the EdbLib reference among
the earlier events. -/
theorem c10_edblib_referenced_before_use_witness :
    (EdbEvent.addReference "EdbLib") ∈
      ([.addReference "Ansys.Ansoft.Edb",
        .addReference "Ansys.Ansoft.EdbBuilderUtils",
        .addReference "EdbLib",
        .addReference "DataModel",
        .addReference "Ansys.Ansoft.SimSetupData",
        .importModule "Ansys.Ansoft.Edb",
        .importModule "Ansys.Ansoft.EdbBuilderUtils",
        .importModule "EdbLib",
        .importModule "Ansys.Ansoft.SimSetupData",
        .takeLayoutMethods, .dbOpen, .loadDataModel] : List EdbEvent) := by
  have h := (c10_edblib_referenced_before_use
    ⟨false, fun _ => true, true, true, true, true, true, true, true⟩
    (some "proj.aedb") false).2.2.2
  exact h
    [.addReference "Ansys.Ansoft.Edb",
     .addReference "Ansys.Ansoft.EdbBuilderUtils",
     .addReference "EdbLib",
     .addReference "DataModel",
     .addReference "Ansys.Ansoft.SimSetupData",
     .importModule "Ansys.Ansoft.Edb",
     .importModule "Ansys.Ansoft.EdbBuilderUtils",
     .importModule "EdbLib",
     .importModule "Ansys.Ansoft.SimSetupData",
     .takeLayoutMethods, .dbOpen, .loadDataModel] [] (by decide)


/-! ## Helper lemmas for the Variable system -/

theorem siScale_pos (u : VUnit) : 0 < siScale u := by
  cases u <;> simp only [siScale] <;> positivity

theorem value_fromSI (u : VUnit) (x : ℝ) :
    Variable.value ⟨fromSI u x, u⟩ = x := by
  have hs := (siScale_pos u).ne.symm
  simp only [Variable.value, fromSI]
  field_simp

theorem unit_system_siUnitOf (sys : VUnitSystem) :
    unit_system_of (siUnitOf sys) = sys := by
  cases sys <;> rfl

theorem add_same_system (v w : Variable) (h : v.unit_system = w.unit_system) :
    ∃ r, v.add w = some r ∧ r.unit_system = v.unit_system
      ∧ r.value = v.value + w.value := by
  refine ⟨⟨fromSI (if v.units = w.units then v.units else siUnitOf v.unit_system)
      (v.value + w.value),
    if v.units = w.units then v.units else siUnitOf v.unit_system⟩, ?_, ?_, ?_⟩
  · simp [Variable.add, h]
  · by_cases he : v.units = w.units <;>
      simp [Variable.unit_system, he, unit_system_siUnitOf]
  · exact value_fromSI _ _

/-- C4: Variable multiplication follows dimensional analysis: a
Current-system variable times a Voltage-system variable, in either operand
order, is a Power-system variable whose SI value is the product of the SI
values of the operands (3 mA times 40 V gives 0.12 W), and a Torque-system
variable times an AngularSpeed-system variable likewise gives a Power-system
result independent of operand order. -/
theorem c4_mul_dimensional (v₁ v₂ v₃ v₄ : Variable)
    (h₁ : v₁.unit_system = .Current) (h₂ : v₂.unit_system = .Voltage)
    (h₃ : v₃.unit_system = .Torque) (h₄ : v₄.unit_system = .AngularSpeed) :
    (v₁.mul v₂).unit_system = .Power
    ∧ (v₁.mul v₂).value = v₁.value * v₂.value
    ∧ v₂.mul v₁ = v₁.mul v₂
    ∧ (v₃.mul v₄).unit_system = .Power
    ∧ (v₃.mul v₄).value = v₃.value * v₄.value
    ∧ v₄.mul v₃ = v₃.mul v₄
    ∧ Variable.mul ⟨3, .mA⟩ ⟨40, .V⟩ = ⟨0.12, .W⟩ := by
  have e₁ : v₁.mul v₂ = ⟨fromSI .W (v₁.value * v₂.value), .W⟩ := by
    simp [Variable.mul, h₁, h₂, unit_system_mul, Option.orElse, siUnitOf]
  have e₂ : v₂.mul v₁ = ⟨fromSI .W (v₂.value * v₁.value), .W⟩ := by
    simp [Variable.mul, h₁, h₂, unit_system_mul, Option.orElse, siUnitOf]
  have e₃ : v₃.mul v₄ = ⟨fromSI .W (v₃.value * v₄.value), .W⟩ := by
    simp [Variable.mul, h₃, h₄, unit_system_mul, Option.orElse, siUnitOf]
  have e₄ : v₄.mul v₃ = ⟨fromSI .W (v₄.value * v₃.value), .W⟩ := by
    simp [Variable.mul, h₃, h₄, unit_system_mul, Option.orElse, siUnitOf]
  refine ⟨?_, ?_, ?_, ?_, ?_, ?_, ?_⟩
  · rw [e₁]; rfl
  · rw [e₁]; exact value_fromSI _ _
  · rw [e₁, e₂, mul_comm]
  · rw [e₃]; rfl
  · rw [e₃]; exact value_fromSI _ _
  · rw [e₃, e₄, mul_comm]
  · norm_num [Variable.mul, Variable.unit_system, unit_system_of,
      unit_system_mul, Option.orElse, siUnitOf, Variable.value, fromSI,
      siScale, siOffset]
    rw [if_neg (by decide : ¬ (VUnitSystem.Current = VUnitSystem.none_)),
        if_neg (by decide : ¬ (VUnitSystem.Voltage = VUnitSystem.none_))]

/-- C4 witness: the theorem applied to the concrete variables 3 mA, 40 V,
100 NewtonMeter and 1000 rpm. -/
theorem c4_mul_dimensional_witness :
    (Variable.mk 3 .mA).unit_system = .Current
    ∧ (Variable.mk 40 .V).unit_system = .Voltage
    ∧ (Variable.mk 100 .NewtonMeter).unit_system = .Torque
    ∧ (Variable.mk 1000 .rpm).unit_system = .AngularSpeed
    ∧ Variable.mul ⟨3, .mA⟩ ⟨40, .V⟩ = ⟨0.12, .W⟩
    ∧ (Variable.mul ⟨100, .NewtonMeter⟩ ⟨1000, .rpm⟩).unit_system = .Power :=
  ⟨rfl, rfl, rfl, rfl,
    (c4_mul_dimensional ⟨3, .mA⟩ ⟨40, .V⟩ ⟨100, .NewtonMeter⟩ ⟨1000, .rpm⟩
      rfl rfl rfl rfl).2.2.2.2.2.2,
    (c4_mul_dimensional ⟨3, .mA⟩ ⟨40, .V⟩ ⟨100, .NewtonMeter⟩ ⟨1000, .rpm⟩
      rfl rfl rfl rfl).2.2.2.1⟩

/-- C5: Variable addition and subtraction are defined only for operands of
the same unit system: a Length-system variable and a unitless variable fail
to add or subtract in both operand orders (`AssertionError`, here `none`),
while two Current-system variables add to a Current-system result whose SI
value is the sum; concretely 3 mA plus 10 A is 10.003 A. -/
theorem c5_add_sub_same_system (a b : ℝ) (v w : Variable)
    (hv : v.unit_system = .Current) (hw : w.unit_system = .Current) :
    Variable.add ⟨a, .mm⟩ ⟨b, .unitless⟩ = none
    ∧ Variable.add ⟨b, .unitless⟩ ⟨a, .mm⟩ = none
    ∧ Variable.sub ⟨a, .mm⟩ ⟨b, .unitless⟩ = none
    ∧ Variable.sub ⟨b, .unitless⟩ ⟨a, .mm⟩ = none
    ∧ (∃ r, v.add w = some r ∧ r.unit_system = .Current
        ∧ r.value = v.value + w.value)
    ∧ Variable.add ⟨3, .mA⟩ ⟨10, .A⟩ = some ⟨10.003, .A⟩ := by
  refine ⟨?_, ?_, ?_, ?_, ?_, ?_⟩
  · simp [Variable.add, Variable.unit_system, unit_system_of]
  · simp [Variable.add, Variable.unit_system, unit_system_of]
  · simp [Variable.sub, Variable.unit_system, unit_system_of]
  · simp [Variable.sub, Variable.unit_system, unit_system_of]
  · obtain ⟨r, hr, hsys, hval⟩ := add_same_system v w (hv.trans hw.symm)
    exact ⟨r, hr, hsys.trans hv, hval⟩
  · unfold Variable.add
    have hc : Variable.unit_system ⟨3, VUnit.mA⟩ = Variable.unit_system ⟨10, VUnit.A⟩ := rfl
    rw [if_pos hc]
    have hne : VUnit.mA ≠ VUnit.A := by decide
    simp only [hne, if_false, ite_false, if_neg hne, fromSI, Variable.value,
      siScale, siOffset, siUnitOf, Variable.unit_system, unit_system_of,
      Option.some.injEq, Variable.mk.injEq]
    norm_num

/-- C5 witness: the theorem applied to concrete Length, unitless and Current
variables. -/
theorem c5_add_sub_same_system_witness :
    (Variable.mk 3 .mA).unit_system = .Current
    ∧ (Variable.mk 10 .A).unit_system = .Current
    ∧ Variable.add ⟨10, .mm⟩ ⟨3, .unitless⟩ = none
    ∧ Variable.add ⟨3, .mA⟩ ⟨10, .A⟩ = some ⟨10.003, .A⟩ :=
  ⟨rfl, rfl,
    (c5_add_sub_same_system 10 3 ⟨3, .mA⟩ ⟨10, .A⟩ rfl rfl).1,
    (c5_add_sub_same_system 10 3 ⟨3, .mA⟩ ⟨10, .A⟩ rfl rfl).2.2.2.2.2⟩

/-- C6: `rescale_to` re-expresses the same physical quantity (the SI value is
preserved) in the requested unit of the same system; 4 mm rescaled to meter
is 0.004, 1 rad rescaled to deg is 180/pi and to degmin sixty times that,
100 cel rescaled to fah is 212, and the Celsius-to-Fahrenheit conversion is
affine: no pure scale factor reproduces it. -/
theorem c6_rescale_to_spec (x : ℝ) (u u2 : VUnit)
    (h : unit_system_of u2 = unit_system_of u) :
    (∃ w, Variable.rescale_to ⟨x, u⟩ u2 = some w ∧ w.units = u2
      ∧ w.value = Variable.value ⟨x, u⟩)
    ∧ Variable.rescale_to ⟨4, .mm⟩ .meter = some ⟨0.004, .meter⟩
    ∧ Variable.rescale_to ⟨1, .rad⟩ .deg = some ⟨180 / Real.pi, .deg⟩
    ∧ Variable.rescale_to ⟨1, .rad⟩ .degmin = some ⟨60 * (180 / Real.pi), .degmin⟩
    ∧ Variable.rescale_to ⟨100, .cel⟩ .fah = some ⟨212, .fah⟩
    ∧ ∀ k : ℝ, ¬ (∀ y : ℝ, Variable.rescale_to ⟨y, .cel⟩ .fah = some ⟨k * y, .fah⟩) := by
  have hpi := Real.pi_ne_zero
  refine ⟨?_, ?_, ?_, ?_, ?_, ?_⟩
  · refine ⟨⟨fromSI u2 (Variable.value ⟨x, u⟩), u2⟩, ?_, rfl, value_fromSI _ _⟩
    simp [Variable.rescale_to, Variable.unit_system, h]
  · unfold Variable.rescale_to
    have hc : unit_system_of VUnit.meter = Variable.unit_system ⟨4, VUnit.mm⟩ := rfl
    rw [if_pos hc]
    simp only [fromSI, Variable.value, siScale, siOffset, Option.some.injEq,
      Variable.mk.injEq]
    norm_num
  · unfold Variable.rescale_to
    have hc : unit_system_of VUnit.deg = Variable.unit_system ⟨1, VUnit.rad⟩ := rfl
    rw [if_pos hc]
    simp only [fromSI, Variable.value, siScale, siOffset, Option.some.injEq,
      Variable.mk.injEq]
    norm_num
  · unfold Variable.rescale_to
    have hc : unit_system_of VUnit.degmin = Variable.unit_system ⟨1, VUnit.rad⟩ := rfl
    rw [if_pos hc]
    simp only [fromSI, Variable.value, siScale, siOffset, Option.some.injEq,
      Variable.mk.injEq]
    norm_num
    field_simp
    norm_num
  · unfold Variable.rescale_to
    have hc : unit_system_of VUnit.fah = Variable.unit_system ⟨100, VUnit.cel⟩ := rfl
    rw [if_pos hc]
    simp only [fromSI, Variable.value, siScale, siOffset, Option.some.injEq,
      Variable.mk.injEq]
    norm_num
  · intro k hk
    have h0 := hk 0
    have h32 : Variable.rescale_to ⟨0, .cel⟩ .fah = some ⟨32, .fah⟩ := by
      unfold Variable.rescale_to
      have hc : unit_system_of VUnit.fah = Variable.unit_system ⟨0, VUnit.cel⟩ := rfl
      rw [if_pos hc]
      simp only [fromSI, Variable.value, siScale, siOffset, Option.some.injEq,
        Variable.mk.injEq]
      norm_num
    rw [h32] at h0
    have h320 : (32 : ℝ) = k * 0 := by
      have hinj := Option.some.inj h0
      exact congrArg Variable.numeric_value hinj
    simp at h320

/-- C6 witness: the theorem applied at 4 mm rescaled to meter. -/
theorem c6_rescale_to_spec_witness :
    unit_system_of .meter = unit_system_of .mm
    ∧ Variable.rescale_to ⟨4, .mm⟩ .meter = some ⟨0.004, .meter⟩
    ∧ Variable.rescale_to ⟨100, .cel⟩ .fah = some ⟨212, .fah⟩ :=
  ⟨rfl,
    (c6_rescale_to_spec 4 .mm .meter rfl).2.1,
    (c6_rescale_to_spec 4 .mm .meter rfl).2.2.2.2.1⟩

end PyAEDT
